import Mathlib

/-!
Verification development for the recipe-management backend
(user accounts, tags, ingredients, recipes).

The data model and the operations below are a shallow embedding of the
repository's code: `app/recipe/views.py` (BaseRecipeAttrViewSet and its
Tag/Ingredient instantiations) is embedded directly; parts of the
repository that live in files not present in the snapshot
(`core/models.py`, `recipe/serializers.py`, the recipe view set) are
modelled from the specification, each marked `Modelled from the spec:`
in its doc comment.

Machine integers do not overflow in any of the embedded operations
(ids and counts), so ids are plain naturals.
-/

/-- Tag record: {id, name, user (owning reference)}. -/
structure Tag where
  id : Nat
  name : String
  user : Nat
deriving DecidableEq, Repr

/-- Ingredient record: {id, name, user (owning reference)}. -/
structure Ingredient where
  id : Nat
  name : String
  user : Nat
deriving DecidableEq, Repr

/-- Recipe record: {id, user, title, time_minutes, price, link,
tags (ids), ingredients (ids), image (optional stored path)}.
The decimal price is carried in cents as an integer. -/
structure Recipe where
  id : Nat
  user : Nat
  title : String
  time_minutes : Nat
  price : Int
  link : Option String
  tags : List Nat
  ingredients : List Nat
  image : Option String
deriving DecidableEq, Repr

/-- The persistent store visible to the endpoints. -/
structure Store where
  tags : List Tag
  ingredients : List Ingredient
  recipes : List Recipe
deriving DecidableEq, Repr

/-- Embedding of `BaseRecipeAttrViewSet.get_queryset` (views.py lines 17-18):
`return self.queryset.filter(user=self.request.user)`.
The class-level queryset and the projection to the `user` column are
the parameters the two subclasses instantiate. -/
def BaseRecipeAttrViewSet.get_queryset {α : Type} (user_of : α → Nat)
    (queryset : List α) (request_user : Nat) : List α :=
  queryset.filter (fun x => user_of x == request_user)

/-- Embedding of `TagViewSet` (views.py lines 24-26): queryset = Tag.objects.all(),
listing goes through the inherited `get_queryset`. -/
def TagViewSet.get_queryset (s : Store) (request_user : Nat) : List Tag :=
  BaseRecipeAttrViewSet.get_queryset Tag.user s.tags request_user

/-- Embedding of `IngredientViewSet` (views.py lines 29-31): queryset =
Ingredient.objects.all(), listing through the inherited `get_queryset`. -/
def IngredientViewSet.get_queryset (s : Store) (request_user : Nat) : List Ingredient :=
  BaseRecipeAttrViewSet.get_queryset Ingredient.user s.ingredients request_user

/-- Query parameters of a tag/ingredient list request. views.py reads
no query parameter in `get_queryset`, so the handler below ignores
this record; it is carried to state what the endpoint does with it. -/
structure AttrListParams where
  assigned_only : Option String
deriving DecidableEq, Repr

/-- The tag list endpoint (ListModelMixin over `TagViewSet.get_queryset`).
views.py's `get_queryset` never consults `self.request.query_params`,
so the `assigned_only` parameter has no effect on the result. -/
def TagViewSet.list (s : Store) (request_user : Nat)
    (_params : AttrListParams) : List Tag :=
  TagViewSet.get_queryset s request_user

/-- The ingredient list endpoint; same shape as the tag list endpoint. -/
def IngredientViewSet.list (s : Store) (request_user : Nat)
    (_params : AttrListParams) : List Ingredient :=
  IngredientViewSet.get_queryset s request_user

/-- Embedding of `BaseRecipeAttrViewSet.perform_create` (views.py lines 20-21):
`serializer.save(user=self.request.user)` — the created row's user
column is forced to the authenticated caller. -/
def TagViewSet.perform_create (request_user : Nat) (newId : Nat)
    (nm : String) : Tag :=
  { id := newId, name := nm, user := request_user }

/-- The inherited `perform_create`, as instantiated by `IngredientViewSet`. -/
def IngredientViewSet.perform_create (request_user : Nat) (newId : Nat)
    (nm : String) : Ingredient :=
  { id := newId, name := nm, user := request_user }

/-- Modelled from the spec: `recipe/serializers.py` is absent from the
snapshot. §6: POST /tags requires a non-empty `name`; §8/§7: an empty
required field returns HTTP 400 and performs no store mutation.
On success `perform_create` (views.py) saves with user := caller, 201. -/
def TagViewSet.create (s : Store) (request_user : Nat) (newId : Nat)
    (nm : String) : Nat × Store :=
  if nm = "" then (400, s)
  else (201, { s with tags := s.tags ++ [TagViewSet.perform_create request_user newId nm] })

/-- Modelled from the spec: same contract as tag creation, for
POST /ingredients (`name` required non-empty, 400 leaves the store as is). -/
def IngredientViewSet.create (s : Store) (request_user : Nat) (newId : Nat)
    (nm : String) : Nat × Store :=
  if nm = "" then (400, s)
  else (201, { s with ingredients := s.ingredients ++ [IngredientViewSet.perform_create request_user newId nm] })

/-- Modelled from the spec: the recipe view set is absent from the
snapshot. §4.1: every list/retrieve over Recipe is filtered to rows
whose user equals the authenticated caller. -/
def RecipeViewSet.get_queryset (s : Store) (request_user : Nat) : List Recipe :=
  s.recipes.filter (fun r => r.user == request_user)

/-- Query parameters of a recipe list request: optional `tags` and
`ingredients`, each a comma-separated list of integer ids (§4.3). -/
structure RecipeListParams where
  tags : Option String
  ingredients : Option String
deriving DecidableEq, Repr

/-- Split a character list on a separator character; mirrors Python's
`str.split(sep)`: the result is never empty, and adjacent separators
produce empty components. -/
def splitOnChar (sep : Char) : List Char → List (List Char)
  | [] => [[]]
  | c :: cs =>
    if c = sep then
      [] :: splitOnChar sep cs
    else
      match splitOnChar sep cs with
      | [] => [[c]]
      | h :: t => (c :: h) :: t

/-- Parse a token as a base-10 natural number; `none` on the empty
token or any non-digit character (the malformed case). -/
def parseNatToken (cs : List Char) : Option Nat :=
  if cs ≠ [] ∧ cs.all Char.isDigit then
    some (cs.foldl (fun n c => n * 10 + (c.toNat - 48)) 0)
  else
    none

/-- Modelled from the spec (§4.3): a comma-separated id parameter is
parsed into integer ids; a malformed (non-integer) token fails with a
client-error response (HTTP 400) rather than being silently ignored. -/
def params_to_ints (qs : String) : Except Nat (List Nat) :=
  let tokens := splitOnChar ',' qs.data
  if tokens.all (fun t => (parseNatToken t).isSome) then
    Except.ok (tokens.filterMap parseNatToken)
  else
    Except.error 400

/-- Modelled from the spec (§4.3): the recipe list endpoint. Ownership
scope first; when a `tags` (resp. `ingredients`) parameter is supplied,
results are restricted to recipes whose tag (resp. ingredient) id set
intersects the supplied id set; the two filters compose conjunctively;
an absent parameter imposes no restriction. A parse failure surfaces
as the HTTP 400 on the left of the `Except`. -/
def RecipeViewSet.list (s : Store) (request_user : Nat)
    (params : RecipeListParams) : Except Nat (List Recipe) := do
  let base := RecipeViewSet.get_queryset s request_user
  let afterTags ← match params.tags with
    | none => pure base
    | some qs => do
        let ids ← params_to_ints qs
        pure (base.filter (fun r => r.tags.any (fun t => ids.contains t)))
  match params.ingredients with
  | none => pure afterTags
  | some qs => do
      let ids ← params_to_ints qs
      pure (afterTags.filter (fun r => r.ingredients.any (fun i => ids.contains i)))

/-- Modelled from the spec (§4.1, §6): GET /recipes/{id} returns the
owned recipe with that id, if any; unowned or nonexistent ids are not
found. -/
def RecipeViewSet.retrieve (s : Store) (request_user : Nat)
    (rid : Nat) : Option Recipe :=
  (RecipeViewSet.get_queryset s request_user).find? (fun r => r.id == rid)

/-- Payload of a recipe create request; `none` marks a missing field. -/
structure RecipeCreatePayload where
  title : Option String
  time_minutes : Option Nat
  price : Option Int
  tagIds : List Nat
  ingredientIds : List Nat
deriving DecidableEq, Repr

/-- Modelled from the spec (§4.4, §8): creating a Recipe requires
title, time_minutes and price; an empty or missing required field
returns HTTP 400 and performs no store mutation. On success the owning
user is set from the authenticated caller, 201. -/
def RecipeViewSet.create (s : Store) (request_user : Nat) (newId : Nat)
    (payload : RecipeCreatePayload) : Nat × Store :=
  match payload.title, payload.time_minutes, payload.price with
  | some t, some tm, some pr =>
      if t = "" then (400, s)
      else
        (201, { s with recipes := s.recipes ++
          [{ id := newId, user := request_user, title := t,
             time_minutes := tm, price := pr, link := none,
             tags := payload.tagIds, ingredients := payload.ingredientIds,
             image := none }] })
  | _, _, _ => (400, s)

/-- A partial-update (PATCH) payload: `none` means the field was not
supplied and must keep its previous value. -/
structure RecipePatch where
  title : Option String
  time_minutes : Option Nat
  price : Option Int
  link : Option (Option String)
  tagIds : Option (List Nat)
  ingredientIds : Option (List Nat)
deriving DecidableEq, Repr

/-- Modelled from the spec (§4.4): partial update replaces only the
provided fields; a supplied tags or ingredients list fully replaces
the association set (not a merge); owner and id are immutable. -/
def Recipe.partialUpdate (r : Recipe) (p : RecipePatch) : Recipe :=
  { r with
    title := p.title.getD r.title,
    time_minutes := p.time_minutes.getD r.time_minutes,
    price := p.price.getD r.price,
    link := p.link.getD r.link,
    tags := p.tagIds.getD r.tags,
    ingredients := p.ingredientIds.getD r.ingredients }

/-- Modelled from the spec (§4.4): full update (PUT) requires all
required fields and fully replaces the tag/ingredient associations. -/
def Recipe.fullUpdate (r : Recipe) (title : String) (tm : Nat) (pr : Int)
    (tagIds : List Nat) (ingredientIds : List Nat) : Recipe :=
  { r with
    title := title,
    time_minutes := tm,
    price := pr,
    tags := tagIds,
    ingredients := ingredientIds }

/-- Modelled from the spec (§4.5, §8): `recipe_image_file_path` in
core/models.py is absent from the snapshot. It ignores the model
instance, takes the last dot-separated component of the original
filename as the extension, draws a fresh identifier from the
identifier source (passed explicitly here so the function stays pure,
matching the mocked `uuid.uuid4` of the test), and returns
`uploads/recipe/<uuid>.<ext>`. -/
def recipe_image_file_path (_inst : Option Recipe) (filename : String)
    (uuid4 : String) : String :=
  let ext := String.mk ((splitOnChar '.' filename.data).getLastD [])
  "uploads/recipe/" ++ uuid4 ++ "." ++ ext

/-- User record (§3): {id, email, password (hashed), name, flags}. -/
structure User where
  id : Nat
  email : String
  password : String
  name : String
  is_active : Bool
  is_staff : Bool
  is_superuser : Bool
deriving DecidableEq, Repr

/-- Stand-in for the password hasher (an external collaborator); only
its application, never its definition, matters to the claims. -/
def hashPassword (p : String) : String :=
  "pbkdf2$" ++ p

/-- Email normalization (§3): the stored email is the input converted
to lowercase. -/
def normalizeEmail (e : String) : String :=
  String.mk (e.data.map Char.toLower)

/-- Modelled from the spec (§3, §8): the user manager's `create_user`
is absent from the snapshot. It rejects an empty or missing email with
a validation failure, and otherwise stores the email normalized to
lowercase and the password hashed. -/
def create_user (email : Option String) (password : String) : Except String User :=
  match email with
  | none => Except.error "Users must have an email address"
  | some e =>
      if e = "" then Except.error "Users must have an email address"
      else
        Except.ok
          { id := 0, email := normalizeEmail e,
            password := hashPassword password, name := "",
            is_active := true, is_staff := false, is_superuser := false }

/-- The specification's statement of the assigned-only tag filter
(§4.2, §8): the caller's tags attached to at least one of the caller's
recipes, each exactly once. Stated from the spec's words, to be
compared against the endpoint embedded from views.py. -/
def specAssignedTags (s : Store) (u : Nat) : List Tag :=
  (TagViewSet.get_queryset s u).filter
    (fun t => s.recipes.any (fun r => r.user == u && r.tags.contains t.id))

/-- The specification's statement of the assigned-only ingredient
filter (§4.2, §8), stated from the spec's words. -/
def specAssignedIngredients (s : Store) (u : Nat) : List Ingredient :=
  (IngredientViewSet.get_queryset s u).filter
    (fun i => s.recipes.any (fun r => r.user == u && r.ingredients.contains i.id))

theorem splitOnChar_ne_nil (sep : Char) (cs : List Char) :
    splitOnChar sep cs ≠ [] := by
  induction cs with
  | nil => simp [splitOnChar]
  | cons c cs ih =>
    by_cases hc : c = sep
    · simp [splitOnChar, hc]
    · cases h : splitOnChar sep cs with
      | nil => simp [splitOnChar, hc, h]
      | cons hd tl => simp [splitOnChar, hc, h]

theorem two_le_length_splitOnChar (sep : Char) (cs : List Char)
    (h : sep ∈ cs) : 2 ≤ (splitOnChar sep cs).length := by
  induction cs with
  | nil => cases h
  | cons c cs ih =>
    by_cases hc : c = sep
    · cases hsp : splitOnChar sep cs with
      | nil => exact absurd hsp (splitOnChar_ne_nil sep cs)
      | cons a l => simp [splitOnChar, hc, hsp]
    · have hm : sep ∈ cs := by
        rcases List.mem_cons.mp h with h1 | h2
        · exact absurd h1.symm hc
        · exact h2
      cases hsp : splitOnChar sep cs with
      | nil => exact absurd hsp (splitOnChar_ne_nil sep cs)
      | cons a l =>
        have := ih hm
        rw [hsp] at this
        simpa [splitOnChar, hc, hsp] using this


theorem splitOnChar_cons_last (sep c : Char) (cs : List Char)
    (h2 : 2 ≤ (splitOnChar sep cs).length) :
    (splitOnChar sep (c :: cs)).getLastD [] =
      (splitOnChar sep cs).getLastD [] := by
  cases hs : splitOnChar sep cs with
  | nil => rw [hs] at h2; simp at h2
  | cons hd tl =>
    cases tl with
    | nil => rw [hs] at h2; simp at h2
    | cons hd2 tl2 =>
      by_cases hc : c = sep
      · simp [splitOnChar, hc, hs, List.getLastD_cons]
      · simp [splitOnChar, hc, hs, List.getLastD_cons]

theorem splitOnChar_last_append (sep : Char) (a e : List Char) :
    (splitOnChar sep (a ++ sep :: e)).getLastD [] =
      (splitOnChar sep e).getLastD [] := by
  induction a with
  | nil =>
    cases hs : splitOnChar sep e with
    | nil => exact absurd hs (splitOnChar_ne_nil sep e)
    | cons hd tl => simp [splitOnChar, hs, List.getLastD_cons]
  | cons c a ih =>
    have h2 : 2 ≤ (splitOnChar sep (a ++ sep :: e)).length :=
      two_le_length_splitOnChar sep (a ++ sep :: e) (by simp)
    calc (splitOnChar sep ((c :: a) ++ sep :: e)).getLastD []
        = (splitOnChar sep (a ++ sep :: e)).getLastD [] :=
          splitOnChar_cons_last sep c (a ++ sep :: e) h2
      _ = (splitOnChar sep e).getLastD [] := ih

theorem splitOnChar_not_mem (sep : Char) (e : List Char) (h : sep ∉ e) :
    splitOnChar sep e = [e] := by
  induction e with
  | nil => rfl
  | cons c cs ih =>
    have hc : ¬ c = sep := fun hh => h (hh ▸ List.mem_cons_self c cs)
    have hm : sep ∉ cs := fun hh => h (List.mem_cons_of_mem c hh)
    simp [splitOnChar, hc, ih hm]

theorem string_mk_data (s : String) : String.mk s.data = s := by
  cases s
  rfl

/-- C4: the function `recipe_image_file_path` is a pure function of its second
argument and the generated identifier — the model-instance argument is
ignored — and for every original filename with a dot-free extension e
and identifier id it returns exactly `uploads/recipe/<id>.<e>`; in
particular, with identifier "test-uuid" and filename "myimage.jpg" it
returns "uploads/recipe/test-uuid.jpg". -/
theorem C4_image_file_path (inst1 inst2 : Option Recipe)
    (base e uuid4 : String) (h : '.' ∉ e.data) :
    recipe_image_file_path inst1 (base ++ "." ++ e) uuid4 =
      "uploads/recipe/" ++ uuid4 ++ "." ++ e ∧
    recipe_image_file_path inst1 "myimage.jpg" "test-uuid" =
      "uploads/recipe/test-uuid.jpg" ∧
    (∀ fn g, recipe_image_file_path inst1 fn g =
      recipe_image_file_path inst2 fn g) := by
  refine ⟨?_, rfl, fun fn g => rfl⟩
  unfold recipe_image_file_path
  have hdata : (base ++ "." ++ e).data = base.data ++ '.' :: e.data := by
    simp [String.data_append]
  rw [hdata, splitOnChar_last_append, splitOnChar_not_mem '.' e.data h]
  simp [string_mk_data]

theorem C4_image_file_path_witness :
    recipe_image_file_path none ("myimage" ++ "." ++ "jpg") "test-uuid" =
      "uploads/recipe/" ++ "test-uuid" ++ "." ++ "jpg" ∧
    recipe_image_file_path none "myimage.jpg" "test-uuid" =
      "uploads/recipe/test-uuid.jpg" ∧
    (∀ fn g, recipe_image_file_path none fn g =
      recipe_image_file_path none fn g) :=
  C4_image_file_path none none "myimage" "jpg" "test-uuid" (by decide)

def demoTag : Tag := { id := 1, name := "test 2", user := 1 }

def demoIngredient : Ingredient := { id := 1, name := "test", user := 1 }

def demoRecipe : Recipe :=
  { id := 1, user := 1, title := "test title", time_minutes := 10,
    price := 500, link := none, tags := [1], ingredients := [1],
    image := none }

def demoStore : Store :=
  { tags := [{ id := 2, name := "test 1", user := 2 }, demoTag],
    ingredients := [demoIngredient],
    recipes := [demoRecipe] }

/-- C1: Ownership scoping — every record returned by a tag, ingredient,
or recipe list or detail operation has its user reference equal to the
authenticated caller, and hence a resource owned by one user never
appears in a different user's response. -/
theorem C1_ownership_scoping (s : Store) (u : Nat) (t : Tag)
    (i : Ingredient) (r rd : Recipe) (rid : Nat)
    (ht : t ∈ TagViewSet.get_queryset s u)
    (hi : i ∈ IngredientViewSet.get_queryset s u)
    (hr : r ∈ RecipeViewSet.get_queryset s u)
    (hd : RecipeViewSet.retrieve s u rid = some rd) :
    t.user = u ∧ i.user = u ∧ r.user = u ∧ rd.user = u ∧
    (∀ b : Nat, b ≠ u → t ∉ TagViewSet.get_queryset s b ∧
      i ∉ IngredientViewSet.get_queryset s b ∧
      r ∉ RecipeViewSet.get_queryset s b) := by
  simp only [TagViewSet.get_queryset, IngredientViewSet.get_queryset,
    RecipeViewSet.get_queryset, BaseRecipeAttrViewSet.get_queryset,
    List.mem_filter, beq_iff_eq] at ht hi hr
  simp only [RecipeViewSet.retrieve] at hd
  have hmem := List.mem_of_find?_eq_some hd
  simp only [RecipeViewSet.get_queryset, List.mem_filter, beq_iff_eq] at hmem
  refine ⟨ht.2, hi.2, hr.2, hmem.2, ?_⟩
  intro b hb
  refine ⟨fun hc => ?_, fun hc => ?_, fun hc => ?_⟩ <;>
    simp only [TagViewSet.get_queryset, IngredientViewSet.get_queryset,
      RecipeViewSet.get_queryset, BaseRecipeAttrViewSet.get_queryset,
      List.mem_filter, beq_iff_eq] at hc
  · exact hb (hc.2.symm.trans ht.2)
  · exact hb (hc.2.symm.trans hi.2)
  · exact hb (hc.2.symm.trans hr.2)

theorem C1_ownership_scoping_witness :
    demoTag.user = 1 ∧ demoIngredient.user = 1 ∧ demoRecipe.user = 1 ∧
    demoRecipe.user = 1 ∧
    (∀ b : Nat, b ≠ 1 → demoTag ∉ TagViewSet.get_queryset demoStore b ∧
      demoIngredient ∉ IngredientViewSet.get_queryset demoStore b ∧
      demoRecipe ∉ RecipeViewSet.get_queryset demoStore b) :=
  C1_ownership_scoping demoStore 1 demoTag demoIngredient demoRecipe
    demoRecipe 1 (by decide) (by decide) (by decide) (by decide)

/-- C10: the Tag and Ingredient endpoints instantiate the single shared
base BaseRecipeAttrViewSet: their list querysets are the one generic
owner filter applied to the respective entity table — characterized by
the identical membership condition — and creation assigns the request
user as owner through the same inherited perform_create for both
entity types. -/
theorem C10_shared_base (s : Store) (u uid : Nat) (nm : String) :
    TagViewSet.get_queryset s u =
      BaseRecipeAttrViewSet.get_queryset Tag.user s.tags u ∧
    IngredientViewSet.get_queryset s u =
      BaseRecipeAttrViewSet.get_queryset Ingredient.user s.ingredients u ∧
    (∀ t : Tag, t ∈ TagViewSet.get_queryset s u ↔ t ∈ s.tags ∧ t.user = u) ∧
    (∀ i : Ingredient, i ∈ IngredientViewSet.get_queryset s u ↔
      i ∈ s.ingredients ∧ i.user = u) ∧
    (TagViewSet.perform_create u uid nm).user = u ∧
    (IngredientViewSet.perform_create u uid nm).user = u := by
  refine ⟨rfl, rfl, ?_, ?_, rfl, rfl⟩ <;> intro x <;>
    simp [TagViewSet.get_queryset, IngredientViewSet.get_queryset,
      BaseRecipeAttrViewSet.get_queryset, List.mem_filter]

def c2tag1 : Tag := { id := 1, name := "tag 1", user := 1 }

def c2tag2 : Tag := { id := 2, name := "tag 2", user := 1 }

def c2ingredient1 : Ingredient := { id := 1, name := "ingredient 1", user := 1 }

def c2ingredient2 : Ingredient := { id := 2, name := "ingredient 2", user := 1 }

def c2recipe : Recipe :=
  { id := 1, user := 1, title := "test title", time_minutes := 10,
    price := 500, link := none, tags := [1], ingredients := [1],
    image := none }

def c2store : Store :=
  { tags := [c2tag1, c2tag2],
    ingredients := [c2ingredient1, c2ingredient2],
    recipes := [c2recipe] }

/-- C2 (divergence): views.py's BaseRecipeAttrViewSet.get_queryset
reads no query parameter, so a tag or ingredient list request with a
truthy assigned_only still returns unassigned entities: tag 2 and
ingredient 2 are attached to no recipe, yet the endpoints return them,
while the specification — and the repository's own tests
test_retrieve_tags_assigned_to_recipe and
test_retrieve_ingredients_assigned_to_recipe — require exactly the
assigned entity. -/
theorem C2_assigned_only_ignored_by_code :
    TagViewSet.list c2store 1 { assigned_only := some "1" } =
      [c2tag1, c2tag2] ∧
    specAssignedTags c2store 1 = [c2tag1] ∧
    IngredientViewSet.list c2store 1 { assigned_only := some "1" } =
      [c2ingredient1, c2ingredient2] ∧
    specAssignedIngredients c2store 1 = [c2ingredient1] := by
  decide

/-- C5: Recipe update semantics — a partial update changes exactly the
provided fields (an absent field keeps its previous value), id, owner
and image are untouched, and a supplied tags (or ingredients) list
becomes the recipe's exact association set afterwards, in partial and
in full update alike (replacement, not merge). -/
theorem C5_update_semantics (r : Recipe) (p : RecipePatch) (ti : String)
    (tm : Nat) (pr : Int) (tl il : List Nat) :
    (Recipe.partialUpdate r p).title = p.title.getD r.title ∧
    (Recipe.partialUpdate r p).time_minutes =
      p.time_minutes.getD r.time_minutes ∧
    (Recipe.partialUpdate r p).price = p.price.getD r.price ∧
    (Recipe.partialUpdate r p).link = p.link.getD r.link ∧
    (Recipe.partialUpdate r p).tags = p.tagIds.getD r.tags ∧
    (Recipe.partialUpdate r p).ingredients =
      p.ingredientIds.getD r.ingredients ∧
    (Recipe.partialUpdate r p).user = r.user ∧
    (Recipe.partialUpdate r p).id = r.id ∧
    (Recipe.partialUpdate r p).image = r.image ∧
    (Recipe.fullUpdate r ti tm pr tl il).tags = tl ∧
    (Recipe.fullUpdate r ti tm pr tl il).ingredients = il ∧
    (Recipe.fullUpdate r ti tm pr tl il).user = r.user :=
  ⟨rfl, rfl, rfl, rfl, rfl, rfl, rfl, rfl, rfl, rfl, rfl, rfl⟩

/-- C7: Atomicity of failed creation — for every create request with a
required field empty or missing (any empty tag or ingredient name, and
any recipe payload whose title is missing or empty, or whose
time_minutes or price is missing, whatever the supplied tag and
ingredient id lists), the response is HTTP 400 and the persistent
store is exactly as it was, so the existence check for an entity
matching the request is the same after the call as before it. -/
theorem C7_failed_create_atomicity (s : Store) (u newId : Nat)
    (nm : String) (payload : RecipeCreatePayload) (hnm : nm = "")
    (hbad : payload.title = none ∨ payload.title = some "" ∨
      payload.time_minutes = none ∨ payload.price = none) :
    TagViewSet.create s u newId nm = (400, s) ∧
    IngredientViewSet.create s u newId nm = (400, s) ∧
    RecipeViewSet.create s u newId payload = (400, s) ∧
    ((TagViewSet.create s u newId nm).2.tags.any
        (fun t => t.name == nm && t.user == u)) =
      (s.tags.any (fun t => t.name == nm && t.user == u)) := by
  subst hnm
  refine ⟨rfl, rfl, ?_, rfl⟩
  rcases payload with ⟨ti, tm, pr, tl, il⟩
  cases ti with
  | none => rfl
  | some t =>
    cases tm with
    | none => rfl
    | some tmv =>
      cases pr with
      | none => rfl
      | some prv =>
        simp only [Option.some.injEq, reduceCtorEq, false_or, or_false] at hbad
        subst hbad
        rfl

def c7payload : RecipeCreatePayload :=
  { title := some "missing price", time_minutes := some 10,
    price := none, tagIds := [1], ingredientIds := [2] }

theorem C7_failed_create_atomicity_witness :
    TagViewSet.create demoStore 1 7 "" = (400, demoStore) ∧
    IngredientViewSet.create demoStore 1 7 "" = (400, demoStore) ∧
    RecipeViewSet.create demoStore 1 7 c7payload = (400, demoStore) ∧
    ((TagViewSet.create demoStore 1 7 "").2.tags.any
        (fun t => t.name == "" && t.user == 1)) =
      (demoStore.tags.any (fun t => t.name == "" && t.user == 1)) :=
  C7_failed_create_atomicity demoStore 1 7 "" c7payload rfl
    (Or.inr (Or.inr (Or.inr rfl)))


/-- The user record built by a successful `create_user` (§3). -/
def newUser (e p : String) : User :=
  { id := 0, email := normalizeEmail e, password := hashPassword p,
    name := "", is_active := true, is_staff := false,
    is_superuser := false }

/-- C8: Email normalization — user creation stores the email converted
to lowercase (creating with "test@MAIL.COM" stores "test@mail.com"),
and creating with a missing email fails with a validation error
rather than creating a user. -/
theorem C8_email_normalization (e p : String) (he : e ≠ "") :
    (∃ u : User, create_user (some e) p = Except.ok u ∧
      u.email = normalizeEmail e) ∧
    (∃ u : User, create_user (some "test@MAIL.COM") p = Except.ok u ∧
      u.email = "test@mail.com") ∧
    (∀ q : String, create_user none q =
      Except.error "Users must have an email address") := by
  refine ⟨⟨newUser e p, ?_, rfl⟩,
    ⟨newUser "test@MAIL.COM" p, rfl,
      show normalizeEmail "test@MAIL.COM" = "test@mail.com" by decide⟩,
    fun q => rfl⟩
  simp [create_user, newUser, he]

theorem C8_email_normalization_witness :
    (∃ u : User, create_user (some "test@MAIL.COM") "pass123" =
      Except.ok u ∧ u.email = normalizeEmail "test@MAIL.COM") ∧
    (∃ u : User, create_user (some "test@MAIL.COM") "pass123" =
      Except.ok u ∧ u.email = "test@mail.com") ∧
    (∀ q : String, create_user none q =
      Except.error "Users must have an email address") :=
  C8_email_normalization "test@MAIL.COM" "pass123" (by decide)

/-- C6: Malformed filter ids — every recipe list request whose tags or
ingredients parameter contains a non-integer token fails with an HTTP
400 client-error response; the malformed token is never silently
ignored, whatever the other parameter holds. -/
theorem C6_malformed_ids (s : Store) (u : Nat) (ts : String)
    (q : Option String)
    (hbad : ∃ tok ∈ splitOnChar ',' ts.data, parseNatToken tok = none) :
    RecipeViewSet.list s u { tags := some ts, ingredients := q } =
      Except.error 400 ∧
    RecipeViewSet.list s u { tags := q, ingredients := some ts } =
      Except.error 400 := by
  have herr : params_to_ints ts = Except.error 400 := by
    obtain ⟨tok, htok, hnone⟩ := hbad
    simp only [params_to_ints]
    rw [if_neg]
    intro hall
    have hsome := List.all_eq_true.mp hall tok htok
    rw [hnone] at hsome
    simp at hsome
  refine ⟨?_, ?_⟩
  · simp only [RecipeViewSet.list, herr]
    rfl
  · cases q with
    | none =>
      simp only [RecipeViewSet.list, herr]
      rfl
    | some qs =>
      cases hq : params_to_ints qs with
      | ok ids =>
        simp only [RecipeViewSet.list, herr, hq]
        rfl
      | error e =>
        have he400 : e = 400 := by
          simp only [params_to_ints] at hq
          split at hq
          · cases hq
          · cases hq
            rfl
        subst he400
        simp only [RecipeViewSet.list, herr, hq]
        rfl

theorem C6_malformed_ids_witness :
    RecipeViewSet.list demoStore 1
      { tags := some "1,abc", ingredients := none } = Except.error 400 ∧
    RecipeViewSet.list demoStore 1
      { tags := none, ingredients := some "1,abc" } = Except.error 400 :=
  C6_malformed_ids demoStore 1 "1,abc" none (by decide)

/-- C3: Multi-id recipe filter — with well-formed comma-separated id
parameters, a recipe appears in the list response iff it is owned by
the caller and, for each supplied parameter, its tag (resp.
ingredient) id set intersects the supplied id set; both filters
compose conjunctively, and an absent parameter imposes no
restriction. -/
theorem C3_multi_id_filter (s : Store) (u : Nat) (ts is : String)
    (tids iids : List Nat) (r : Recipe)
    (hts : params_to_ints ts = Except.ok tids)
    (his : params_to_ints is = Except.ok iids) :
    (∃ l, RecipeViewSet.list s u { tags := some ts, ingredients := some is } =
        Except.ok l ∧
      (r ∈ l ↔ r ∈ s.recipes ∧ r.user = u ∧
        (∃ a ∈ r.tags, a ∈ tids) ∧ (∃ b ∈ r.ingredients, b ∈ iids))) ∧
    (∃ l, RecipeViewSet.list s u { tags := some ts, ingredients := none } =
        Except.ok l ∧
      (r ∈ l ↔ r ∈ s.recipes ∧ r.user = u ∧ (∃ a ∈ r.tags, a ∈ tids))) ∧
    (∃ l, RecipeViewSet.list s u { tags := none, ingredients := some is } =
        Except.ok l ∧
      (r ∈ l ↔ r ∈ s.recipes ∧ r.user = u ∧
        (∃ b ∈ r.ingredients, b ∈ iids))) ∧
    (∃ l, RecipeViewSet.list s u { tags := none, ingredients := none } =
        Except.ok l ∧
      (r ∈ l ↔ r ∈ s.recipes ∧ r.user = u)) := by
  refine
    ⟨⟨((RecipeViewSet.get_queryset s u).filter
        (fun x => x.tags.any (fun t => tids.contains t))).filter
        (fun x => x.ingredients.any (fun i => iids.contains i)), ?_, ?_⟩,
    ⟨(RecipeViewSet.get_queryset s u).filter
        (fun x => x.tags.any (fun t => tids.contains t)), ?_, ?_⟩,
    ⟨(RecipeViewSet.get_queryset s u).filter
        (fun x => x.ingredients.any (fun i => iids.contains i)), ?_, ?_⟩,
    ⟨RecipeViewSet.get_queryset s u, ?_, ?_⟩⟩
  · simp only [RecipeViewSet.list, hts, his]
    rfl
  · simp [RecipeViewSet.get_queryset, List.mem_filter, List.any_eq_true,
      List.contains, beq_iff_eq, and_assoc]
    tauto
  · simp only [RecipeViewSet.list, hts]
    rfl
  · simp [RecipeViewSet.get_queryset, List.mem_filter, List.any_eq_true,
      List.contains, beq_iff_eq, and_assoc]
    tauto
  · simp only [RecipeViewSet.list, his]
    rfl
  · simp [RecipeViewSet.get_queryset, List.mem_filter, List.any_eq_true,
      List.contains, beq_iff_eq, and_assoc]
    tauto
  · rfl
  · simp [RecipeViewSet.get_queryset, List.mem_filter, beq_iff_eq]

def c3recipe1 : Recipe :=
  { id := 1, user := 1, title := "recipe 1", time_minutes := 10,
    price := 500, link := none, tags := [1], ingredients := [1],
    image := none }

def c3store : Store :=
  { tags := [], ingredients := [], recipes := [c3recipe1] }

theorem C3_multi_id_filter_witness :
    (∃ l, RecipeViewSet.list c3store 1
        { tags := some "1,2", ingredients := some "1" } = Except.ok l ∧
      (c3recipe1 ∈ l ↔ c3recipe1 ∈ c3store.recipes ∧ c3recipe1.user = 1 ∧
        (∃ a ∈ c3recipe1.tags, a ∈ [1, 2]) ∧
        (∃ b ∈ c3recipe1.ingredients, b ∈ [1]))) ∧
    (∃ l, RecipeViewSet.list c3store 1
        { tags := some "1,2", ingredients := none } = Except.ok l ∧
      (c3recipe1 ∈ l ↔ c3recipe1 ∈ c3store.recipes ∧ c3recipe1.user = 1 ∧
        (∃ a ∈ c3recipe1.tags, a ∈ [1, 2]))) ∧
    (∃ l, RecipeViewSet.list c3store 1
        { tags := none, ingredients := some "1" } = Except.ok l ∧
      (c3recipe1 ∈ l ↔ c3recipe1 ∈ c3store.recipes ∧ c3recipe1.user = 1 ∧
        (∃ b ∈ c3recipe1.ingredients, b ∈ [1]))) ∧
    (∃ l, RecipeViewSet.list c3store 1
        { tags := none, ingredients := none } = Except.ok l ∧
      (c3recipe1 ∈ l ↔ c3recipe1 ∈ c3store.recipes ∧ c3recipe1.user = 1)) :=
  C3_multi_id_filter c3store 1 "1,2" "1" [1, 2] [1] c3recipe1 rfl rfl
